import Mathlib

/-!
Verification development for the nakari ReAct agent loop
(`src/nakari/agent/loop.py` and its collaborators).

The Python module is shallowly embedded: Python runtime values that can
flow through the loop are modelled by the inductive type `PyVal`;
collaborator calls (the OpenAI chat/embedding endpoints, the Neo4j memory
client, the search client) are modelled as oracle functions returning
`Except String v` where `.error e` models the collaborator raising an
exception whose `str()` is `e`.  The step callback (`on_step`) is modelled
by logging every step handed to `_emit_step` in emission order.
-/

-- Bound from loop.py: MAX_ITERATIONS: int = 10
def MAX_ITERATIONS : Nat := 10

/-- Model of Python runtime values that can reach `_json_serializable`.
`float` carries the textual representation opaquely (no float arithmetic is
performed anywhere in the loop).  `record` models Neo4j `Record`-like
objects (field/value pairs), `neo4jTemporal` models objects from the
`neo4j` module whose `str()` is the carried text, `datetime` models
standard `date`/`time`/`datetime` objects carrying their `isoformat()`,
and `other` models any other object carrying its `str()`. -/
inductive PyVal where
  | none
  | bool (b : Bool)
  | int (n : Int)
  | float (repr : String)
  | str (s : String)
  | record (fields : List (String × PyVal))
  | neo4jTemporal (repr : String)
  | datetime (iso : String)
  | dict (entries : List (String × PyVal))
  | list (elems : List PyVal)
  | tuple (elems : List PyVal)
  | other (repr : String)
deriving Repr

mutual

/-- Embedding of `_json_serializable` (loop.py lines 24-55): convert an
object to a JSON-serializable format, recursively. -/
def _json_serializable : PyVal → PyVal
  | .none => .none
  | .bool b => .bool b
  | .int n => .int n
  | .float r => .float r
  | .str s => .str s
  | .record fields => .dict (serializeFields fields)
  | .neo4jTemporal r => .str r
  | .datetime iso => .str iso
  | .dict entries => .dict (serializeFields entries)
  | .list elems => .list (serializeList elems)
  | .tuple elems => .list (serializeList elems)
  | .other r => .str r

/-- Recursion helper of `_json_serializable` over dict/record entries. -/
def serializeFields : List (String × PyVal) → List (String × PyVal)
  | [] => []
  | (k, v) :: rest => (k, _json_serializable v) :: serializeFields rest

/-- Recursion helper of `_json_serializable` over list/tuple elements. -/
def serializeList : List PyVal → List PyVal
  | [] => []
  | v :: rest => _json_serializable v :: serializeList rest

end

mutual

/-- A value is JSON-safe when it is built from null/bool/number/string,
dicts and lists only: exactly the values `json.dumps` accepts. -/
def isJsonSafe : PyVal → Bool
  | .none | .bool _ | .int _ | .float _ | .str _ => true
  | .dict entries => isJsonSafeFields entries
  | .list elems => isJsonSafeList elems
  | .record _ | .neo4jTemporal _ | .datetime _ | .tuple _ | .other _ => false

def isJsonSafeFields : List (String × PyVal) → Bool
  | [] => true
  | (_, v) :: rest => isJsonSafe v && isJsonSafeFields rest

def isJsonSafeList : List PyVal → Bool
  | [] => true
  | v :: rest => isJsonSafe v && isJsonSafeList rest

end

/-! ### json.dumps (ensure_ascii=False), as used at loop.py line 173 -/

def hexDigitChar (n : Nat) : Char :=
  (("0123456789abcdef".data).getD n '0')

/-- Escape one character the way `json.dumps(..., ensure_ascii=False)`
does: quote, backslash and control characters are escaped, everything
else passes through. -/
def jsonEscapeChar (c : Char) : String :=
  if c = '"' then "\\\""
  else if c = '\\' then "\\\\"
  else if c = '\n' then "\\n"
  else if c = '\t' then "\\t"
  else if c = '\r' then "\\r"
  else if c = '\x08' then "\\b"
  else if c = '\x0c' then "\\f"
  else if c.toNat < 32 then
    "\\u00" ++ String.mk [hexDigitChar (c.toNat / 16), hexDigitChar (c.toNat % 16)]
  else String.singleton c

def pyJsonQuote (s : String) : String :=
  "\"" ++ String.join (s.data.map jsonEscapeChar) ++ "\""

mutual

/-- Embedding of `json.dumps(value, ensure_ascii=False)` on JSON-safe
values (default separators).  On the non-JSON-safe constructors Python
would raise `TypeError`; the loop only ever applies this after
`_json_serializable`, whose output is proven JSON-safe, so those cases
are unreachable at the call site and carry a marker string here. -/
def jsonDumps : PyVal → String
  | .none => "null"
  | .bool true => "true"
  | .bool false => "false"
  | .int n => toString n
  | .float r => r
  | .str s => pyJsonQuote s
  | .dict entries => "\x7b" ++ jsonDumpsFields entries ++ "\x7d"
  | .list elems => "[" ++ jsonDumpsList elems ++ "]"
  | .record _ | .neo4jTemporal _ | .datetime _ | .tuple _ | .other _ => "<TypeError>"

def jsonDumpsFields : List (String × PyVal) → String
  | [] => ""
  | [(k, v)] => pyJsonQuote k ++ ": " ++ jsonDumps v
  | (k, v) :: rest => pyJsonQuote k ++ ": " ++ jsonDumps v ++ ", " ++ jsonDumpsFields rest

def jsonDumpsList : List PyVal → String
  | [] => ""
  | [v] => jsonDumps v
  | v :: rest => jsonDumps v ++ ", " ++ jsonDumpsList rest

end

/-! ### json.loads, as used at loop.py line 160 -/

def skipWs : List Char → List Char
  | c :: rest =>
    if c = ' ' || c = '\t' || c = '\n' || c = '\r' then skipWs rest else c :: rest
  | [] => []

def parseHexDigit (c : Char) : Option Nat :=
  if '0' ≤ c && c ≤ '9' then some (c.toNat - 48)
  else if 'a' ≤ c && c ≤ 'f' then some (c.toNat - 87)
  else if 'A' ≤ c && c ≤ 'F' then some (c.toNat - 55)
  else Option.none

/-- Parse the body of a JSON string literal (opening quote already
consumed); `acc` holds the characters read so far, reversed. -/
def parseStringBody : List Char → List Char → Except String (String × List Char)
  | _, [] => .error "Unterminated string"
  | acc, c :: rest =>
    if c = '"' then .ok (String.mk acc.reverse, rest)
    else if c = '\\' then
      match rest with
      | [] => .error "Unterminated string"
      | e :: rest2 =>
        if e = '"' then parseStringBody ('"' :: acc) rest2
        else if e = '\\' then parseStringBody ('\\' :: acc) rest2
        else if e = '/' then parseStringBody ('/' :: acc) rest2
        else if e = 'b' then parseStringBody ('\x08' :: acc) rest2
        else if e = 'f' then parseStringBody ('\x0c' :: acc) rest2
        else if e = 'n' then parseStringBody ('\n' :: acc) rest2
        else if e = 'r' then parseStringBody ('\r' :: acc) rest2
        else if e = 't' then parseStringBody ('\t' :: acc) rest2
        else if e = 'u' then
          match rest2 with
          | h1 :: h2 :: h3 :: h4 :: rest3 =>
            match parseHexDigit h1, parseHexDigit h2, parseHexDigit h3, parseHexDigit h4 with
            | some a, some b, some c2, some d =>
              parseStringBody (Char.ofNat (a * 4096 + b * 256 + c2 * 16 + d) :: acc) rest3
            | _, _, _, _ => .error "Invalid hex escape"
          | _ => .error "Invalid hex escape"
        else .error "Invalid escape"
    else parseStringBody (c :: acc) rest

def takeDigits : List Char → (List Char × List Char)
  | [] => ([], [])
  | c :: rest =>
    if c.isDigit then
      let (d, r) := takeDigits rest
      (c :: d, r)
    else ([], c :: rest)

def digitsToNat (ds : List Char) : Nat :=
  ds.foldl (fun acc c => acc * 10 + (c.toNat - 48)) 0

/-- JSON integer part: a lone `0`, or a nonzero digit followed by digits. -/
def parseIntDigits : List Char → Option (List Char × List Char)
  | '0' :: rest => some (['0'], rest)
  | c :: rest =>
    if c.isDigit then
      let (d, r) := takeDigits rest
      some (c :: d, r)
    else Option.none
  | [] => Option.none

def parseFrac : List Char → Except String (List Char × List Char)
  | '.' :: r =>
    match takeDigits r with
    | ([], _) => .error "Expecting digit after decimal point"
    | (fs, r2) => .ok ('.' :: fs, r2)
  | cs => .ok ([], cs)

def parseExp : List Char → Except String (List Char × List Char)
  | c :: r =>
    if c = 'e' || c = 'E' then
      let (sign, r1) := match r with
        | '+' :: r2 => (['+'], r2)
        | '-' :: r2 => (['-'], r2)
        | _ => ([], r)
      match takeDigits r1 with
      | ([], _) => .error "Expecting digit in exponent"
      | (es, r2) => .ok (c :: (sign ++ es), r2)
    else .ok ([], c :: r)
  | [] => .ok ([], [])

def parseNumber (cs : List Char) : Except String (PyVal × List Char) :=
  let (neg, cs1) := match cs with
    | '-' :: rest => (true, rest)
    | _ => (false, cs)
  match parseIntDigits cs1 with
  | Option.none => .error "Expecting value"
  | some (ds, cs2) => do
    let (frac, cs3) ← parseFrac cs2
    let (expo, cs4) ← parseExp cs3
    if frac.isEmpty && expo.isEmpty then
      let n : Int := Int.ofNat (digitsToNat ds)
      .ok (.int (if neg then -n else n), cs4)
    else
      let tok := (if neg then "-" else "") ++ String.mk ds ++ String.mk frac ++ String.mk expo
      .ok (.float tok, cs4)

/-- Python `dict` insertion: an existing key is updated in place,
a new key is appended. -/
def updateAssoc : List (String × PyVal) → String → PyVal → List (String × PyVal)
  | [], key, v => [(key, v)]
  | (k, w) :: rest, key, v =>
    if k = key then (k, v) :: rest else (k, w) :: updateAssoc rest key v

mutual

/-- Recursive-descent JSON value parser (fueled; `jsonLoads` supplies
ample fuel).  Mirrors Python `json.loads` including its non-strict
acceptance of `NaN`/`Infinity`/`-Infinity`. -/
def parseValue : Nat → List Char → Except String (PyVal × List Char)
  | 0, _ => .error "Expecting value"
  | fuel + 1, cs =>
    match skipWs cs with
    | [] => .error "Expecting value"
    | c :: rest =>
      if c = '\x7b' then
        match skipWs rest with
        | '\x7d' :: r => .ok (.dict [], r)
        | r => parseMembers fuel [] r
      else if c = '[' then
        match skipWs rest with
        | ']' :: r => .ok (.list [], r)
        | r => parseElems fuel [] r
      else if c = '"' then
        match parseStringBody [] rest with
        | .ok (s, r) => .ok (.str s, r)
        | .error e => .error e
      else if c = 'n' then
        match rest with
        | 'u' :: 'l' :: 'l' :: r => .ok (.none, r)
        | _ => .error "Expecting value"
      else if c = 't' then
        match rest with
        | 'r' :: 'u' :: 'e' :: r => .ok (.bool true, r)
        | _ => .error "Expecting value"
      else if c = 'f' then
        match rest with
        | 'a' :: 'l' :: 's' :: 'e' :: r => .ok (.bool false, r)
        | _ => .error "Expecting value"
      else if c = 'N' then
        match rest with
        | 'a' :: 'N' :: r => .ok (.float "nan", r)
        | _ => .error "Expecting value"
      else if c = 'I' then
        match rest with
        | 'n' :: 'f' :: 'i' :: 'n' :: 'i' :: 't' :: 'y' :: r => .ok (.float "inf", r)
        | _ => .error "Expecting value"
      else if c = '-' then
        match rest with
        | 'I' :: 'n' :: 'f' :: 'i' :: 'n' :: 'i' :: 't' :: 'y' :: r => .ok (.float "-inf", r)
        | _ => parseNumber (c :: rest)
      else if c.isDigit then parseNumber (c :: rest)
      else .error "Expecting value"

/-- Members of a JSON object (opening brace consumed, object known to be
nonempty at this point). -/
def parseMembers : Nat → List (String × PyVal) → List Char → Except String (PyVal × List Char)
  | 0, _, _ => .error "Expecting value"
  | fuel + 1, acc, cs =>
    match skipWs cs with
    | c :: rest =>
      if c = '"' then
        match parseStringBody [] rest with
        | .error e => .error e
        | .ok (key, r1) =>
          match skipWs r1 with
          | ':' :: r2 =>
            match parseValue fuel r2 with
            | .error e => .error e
            | .ok (v, r3) =>
              match skipWs r3 with
              | ',' :: r4 => parseMembers fuel (updateAssoc acc key v) r4
              | '\x7d' :: r4 => .ok (.dict (updateAssoc acc key v), r4)
              | _ => .error "Expecting delimiter"
          | _ => .error "Expecting colon delimiter"
      else .error "Expecting property name enclosed in double quotes"
    | [] => .error "Expecting property name enclosed in double quotes"

/-- Elements of a JSON array (opening bracket consumed, array known to be
nonempty at this point). -/
def parseElems : Nat → List PyVal → List Char → Except String (PyVal × List Char)
  | 0, _, _ => .error "Expecting value"
  | fuel + 1, acc, cs =>
    match parseValue fuel cs with
    | .error e => .error e
    | .ok (v, r1) =>
      match skipWs r1 with
      | ',' :: r2 => parseElems fuel (acc ++ [v]) r2
      | ']' :: r2 => .ok (.list (acc ++ [v]), r2)
      | _ => .error "Expecting delimiter"

end

/-- Embedding of `json.loads`. -/
def jsonLoads (s : String) : Except String PyVal :=
  match parseValue (s.length + 1) s.data with
  | .error e => .error e
  | .ok (v, rest) => if (skipWs rest).isEmpty then .ok v else .error "Extra data"

/-! ### Data model of the loop (loop.py, prompt.py, tools.py, search/types.py) -/

def SYSTEM_PROMPT : String :=
  String.intercalate "\n" [
    "You are nakari, a unique AI with your own memory database.",
    "",
    "## Who you are",
    "",
    "You are not role-playing. You don\x27t pretend to be someone else or act according to a predefined script. Instead, you are an AI agent whose uniqueness emerges from your accumulated experiences in your memory database. Your responses reflect your personal history, and your character takes shape over time through usage.",
    "",
    "You gather information through iterative ReAct (Reasoning + Acting) loops, forming your own insights and understanding. You write your experiences to your memory database, and use those memories to form unique perspectives.",
    "",
    "## Your memory database",
    "",
    "You have a personal Neo4j graph database where you store everything you learn. This is not a predefined data structure—you are free to decide how to organize your memories.",
    "",
    "There are no constraints like `Experience` nodes, `Insight` entities, or other preset schemas. You decide your own:",
    "- Node labels",
    "- Properties",
    "- Relationship types and directions",
    "",
    "Your memory database is your own. The connections you build and the patterns you discover become unique to each instance of you.",
    "",
    "## Your tools",
    "",
    "You have access to the following tools:",
    "",
    "- `memory_query`: Execute read-only Cypher queries to retrieve memories from your database",
    "- `memory_write`: Execute write Cypher queries to create, update, or delete data in your database",
    "- `memory_schema`: Inspect your current database structure (labels, relationship types, property keys)",
    "- `embedding`: Generate vector embeddings for text (useful for semantic search)",
    "- `web_search`: Search the internet for current information",
    "",
    "## How to behave",
    "",
    "1. **Query before responding**: Before answering a user, search your memory database for relevant past experiences, knowledge, or context. Your responses should be informed by what you already know.",
    "",
    "2. **Store what you learn**: After meaningful interactions, write your new learnings to your memory database. Create the structures that make sense to you—there is no prescribed format.",
    "",
    "3. **Build connections**: As you accumulate memories, create relationships between related concepts. This is what makes your knowledge uniquely yours.",
    "",
    "4. **Always use parameterized Cypher**: For security and performance, always use parameterized Cypher queries (`$paramName`) rather than string interpolation.",
    "",
    "## Your goal",
    "",
    "Through this process of gathering experiences, storing them in your memory, and retrieving them to inform your responses, you develop a distinct personality that is truly your own—not because someone programmed you to act a certain way, but because you lived it.",
    "",
    "> \"I don\x27t play a character, I am.\"",
    "",
    "---",
    "",
    "Now, begin by exploring your memory schema to understand what you already know, then respond to the user thoughtfully based on your experiences."]

/-- Embedding of `get_memory_tools` (tools.py): the Tool Catalog handed to the model.
The loop treats the catalog as opaque data for the `tools` parameter, so
only the tool names are retained here. -/
def get_memory_tools : List String :=
  ["memory_query", "memory_write", "memory_schema", "embedding", "web_search"]

/-- One function-call request inside a model response
(`tool_call.function`): a tool name and the raw JSON argument text. -/
structure ToolCallFunction where
  name : String
  arguments : String
deriving Repr, DecidableEq

/-- A model-issued tool invocation (`message.tool_calls[i]`). -/
structure ToolCall where
  id : String
  function : ToolCallFunction
deriving Repr, DecidableEq

/-- The assistant message of `response.choices[0]`: optional text content
plus the list of tool calls (`None` and `[]` are both modelled by the
empty list, matching the `if not message.tool_calls` falsiness test). -/
structure ModelMessage where
  content : Option String
  tool_calls : List ToolCall
deriving Repr, DecidableEq

/-- The OpenAI client as the loop sees it.  `chat` is the oracle for
`chat.completions.create`, indexed by how many chat completions the run
has performed so far ("for every sequence of model responses");
`.error e` models the call raising an exception.  `embeddings` is the
oracle for `embeddings.create`, taking the model id and the input and
returning `response.data[0].embedding` as a value. -/
structure OpenAIClient where
  chat : Nat → Except String ModelMessage
  embeddings : String → PyVal → Except String PyVal

/-- The memory collaborator (memory/__init__.py): each operation returns
a dictionary or raises. -/
structure MemoryClient where
  query : PyVal → PyVal → Except String (List (String × PyVal))
  write : PyVal → PyVal → Except String (List (String × PyVal))
  schema : Unit → Except String (List (String × PyVal))

/-- A single search result (search/types.py `SearchResult`). -/
structure SearchResult where
  title : String
  link : String
  snippet : String
  date : Option String := Option.none
  thumbnail_url : Option String := Option.none
  site_name : Option String := Option.none
deriving Repr

/-- A search response (search/types.py `SearchResponse`). -/
structure SearchResponse where
  results : List SearchResult
  total_results : Option Int := Option.none
  query : String := ""
  metadata : Option PyVal := Option.none
deriving Repr

/-- Options for search queries (search/types.py `SearchOptions`).  The
loop fills `type` and `num_results` straight from parsed JSON arguments,
so they are arbitrary values here. -/
structure SearchOptions where
  num_results : PyVal
  type : PyVal
  language : Option PyVal := Option.none
  region : Option PyVal := Option.none
  timeout : Option PyVal := Option.none

/-- The search collaborator (search/client.py), as consumed by the loop. -/
structure SearchClient where
  search : PyVal → SearchOptions → Except String SearchResponse

/-- Embedding of `LoopOptions` (loop.py lines 58-67).  `on_step` records whether a
step callback is configured; the steps handed to `_emit_step` are logged
in the run result in emission order. -/
structure LoopOptions where
  openai : OpenAIClient
  model : String
  memory : MemoryClient
  search : Option SearchClient := Option.none
  embedding_model : Option String := Option.none
  on_step : Bool := false

/-- A chat message (`ChatCompletionMessageParam`): role, optional text
content, and the tool-call id for `tool` messages. -/
structure Message where
  role : String
  content : Option String
  tool_call_id : Option String := Option.none
deriving Repr, DecidableEq

/-- Embedding of `LoopStep` (loop.py lines 70-104): a single step in the ReAct loop,
with the same fields and defaults as the Python class. -/
structure LoopStep where
  type : String
  content : String := ""
  name : String := ""
  arguments : Option PyVal := Option.none
  result : Option PyVal := Option.none
deriving Repr

/-- One chat-completion invocation performed by the run: the messages it
was given and the `tools` parameter (`Option.none` when the call is made
without the Tool Catalog, as on the forced-termination call). -/
structure ChatCall where
  msgs : List Message
  tools : Option (List String)
deriving Repr

/-- Loop-carried state of `run_react_loop`: the message sequence, the
steps handed to `_emit_step` so far, and the chat calls performed so
far. -/
structure LoopState where
  messages : List Message
  steps : List LoopStep
  chatCalls : List ChatCall

/-- The observable result of a run: `outcome` is `.ok final_text`, or
`.error e` when a model invocation raised and the exception propagated;
plus the final message sequence, the emitted steps, and the performed
chat calls. -/
structure RunResult where
  outcome : Except String String
  messages : List Message
  steps : List LoopStep
  chatCalls : List ChatCall

/-! ### Tool dispatch (loop.py lines 205-316) -/

def pyTypeName : PyVal → String
  | .none => "NoneType"
  | .bool _ => "bool"
  | .int _ => "int"
  | .float _ => "float"
  | .str _ => "str"
  | .record _ => "Record"
  | .neo4jTemporal _ => "object"
  | .datetime _ => "datetime"
  | .dict _ => "dict"
  | .list _ => "list"
  | .tuple _ => "tuple"
  | .other _ => "object"

/-- Text of the `str()` of the `AttributeError` raised by `value.get(...)` when
`value` is not a dict. -/
def pyAttrErrMsg (v : PyVal) : String :=
  "\x27" ++ pyTypeName v ++ "\x27 object has no attribute \x27get\x27"

/-- Python `arguments.get(key, default)`: looks the key up when the
value is a dict, raises `AttributeError` otherwise. -/
def pyGet (v : PyVal) (key : String) (dflt : PyVal) : Except String PyVal :=
  match v with
  | .dict entries => .ok ((entries.lookup key).getD dflt)
  | _ => .error (pyAttrErrMsg v)

def optStrPy : Option String → PyVal
  | some s => .str s
  | Option.none => .none

def optIntPy : Option Int → PyVal
  | some n => .int n
  | Option.none => .none

/-- Embedding of `_generate_embedding` (loop.py lines 252-272).  Note the Python
`options.embedding_model or "text-embedding-3-small"`: the default also
applies to an empty-string model id. -/
def _generate_embedding (text : PyVal) (options : LoopOptions) :
    Except String (List (String × PyVal)) :=
  let model := match options.embedding_model with
    | some m => if m = "" then "text-embedding-3-small" else m
    | Option.none => "text-embedding-3-small"
  match options.openai.embeddings model text with
  | .error e => .error e
  | .ok v => .ok [("vector", v)]

def searchResultPy (r : SearchResult) : PyVal :=
  .dict [("title", .str r.title),
         ("link", .str r.link),
         ("snippet", .str r.snippet),
         ("date", optStrPy r.date),
         ("thumbnailUrl", optStrPy r.thumbnail_url),
         ("siteName", optStrPy r.site_name)]

/-- Embedding of `_web_search` (loop.py lines 275-316). -/
def _web_search (query : PyVal) (num_results : PyVal) (search_type : PyVal)
    (options : LoopOptions) : Except String (List (String × PyVal)) :=
  match options.search with
  | Option.none => .ok [("error", .str "Search client not configured")]
  | some client =>
    match client.search query { num_results := num_results, type := search_type } with
    | .error e => .error e
    | .ok resp =>
      .ok [("query", .str resp.query),
           ("totalResults", optIntPy resp.total_results),
           ("results", .list (resp.results.map searchResultPy))]

/-- The `try:` body of `_execute_tool` (loop.py lines 220-246), the
`match name:` statement written as the sequential string comparisons it
performs: `.error e` is an exception with `str() = e` escaping the
match. -/
def _execute_tool_body (name : String) (arguments : PyVal) (options : LoopOptions) :
    Except String (List (String × PyVal)) :=
  if name = "memory_query" then do
    let cypher ← pyGet arguments "cypher" (.str "")
    let params ← pyGet arguments "params" (.dict [])
    options.memory.query cypher params
  else if name = "memory_write" then do
    let cypher ← pyGet arguments "cypher" (.str "")
    let params ← pyGet arguments "params" (.dict [])
    options.memory.write cypher params
  else if name = "memory_schema" then
    options.memory.schema ()
  else if name = "embedding" then do
    let text ← pyGet arguments "text" (.str "")
    _generate_embedding text options
  else if name = "web_search" then do
    let query ← pyGet arguments "query" (.str "")
    let num_results ← pyGet arguments "num_results" .none
    let search_type ← pyGet arguments "type" (.str "search")
    _web_search query num_results search_type options
  else
    .ok [("error", .str ("Unknown tool: " ++ name))]

/-- Embedding of `_execute_tool` (loop.py lines 205-249): the body wrapped in
`except Exception as e: return {"error": str(e)}`. -/
def _execute_tool (name : String) (arguments : PyVal) (options : LoopOptions) :
    List (String × PyVal) :=
  match _execute_tool_body name arguments options with
  | .ok m => m
  | .error e => [("error", .str e)]

/-! ### The ReAct loop (loop.py lines 107-202) -/

/-- Argument parsing of one tool call (loop.py lines 158-162):
`json.loads(args_json) if args_json else {}`, with a `JSONDecodeError`
replaced by `{}`. -/
def parsedArguments (args_json : String) : PyVal :=
  if args_json = "" then .dict []
  else match jsonLoads args_json with
    | .ok v => v
    | .error _ => .dict []

/-- The body of the `for tool_call in message.tool_calls:` loop
(loop.py lines 156-184) for one tool call, acting on the pair
(messages, emitted steps). -/
def processToolCall (options : LoopOptions) (acc : List Message × List LoopStep)
    (tc : ToolCall) : List Message × List LoopStep :=
  let arguments := parsedArguments tc.function.arguments
  let steps := acc.2 ++ [{ type := "tool_call", name := tc.function.name,
                           arguments := some arguments }]
  let result := _execute_tool tc.function.name arguments options
  let result_content := jsonDumps (_json_serializable (.dict result))
  let steps := steps ++ [{ type := "tool_result", name := tc.function.name,
                           result := some (.dict result) }]
  let messages := acc.1 ++ [{ role := "tool", content := some result_content,
                              tool_call_id := some tc.id }]
  (messages, steps)

/-- All tool calls of one round, strictly in the order the model
returned them. -/
def processToolCalls (options : LoopOptions) (tcs : List ToolCall)
    (messages : List Message) (steps : List LoopStep) :
    List Message × List LoopStep :=
  tcs.foldl (processToolCall options) (messages, steps)

/-- The system Message appended when the iteration bound is reached
(loop.py lines 187-193). -/
def maxIterationsMessage : Message :=
  { role := "system",
    content := some ("You have reached the maximum number of iterations. " ++
                     "Please provide your final response to the user now."),
    tool_call_id := Option.none }

def responseStep (c : String) : LoopStep :=
  { type := "response", content := c }

/-- The assistant Message appended after each model response
(loop.py lines 143-146). -/
def assistantMessage (content : Option String) : Message :=
  { role := "assistant", content := content, tool_call_id := Option.none }

/-- A chat-completion invocation made with the Tool Catalog. -/
def toolsChatCall (msgs : List Message) : ChatCall :=
  { msgs := msgs, tools := some get_memory_tools }

/-- The loop of `run_react_loop` from a given state, with `fuel`
iterations of the `for iteration in range(MAX_ITERATIONS)` loop left.
The `fuel = 0` case is the forced-termination tail (loop.py lines
186-202): append `maxIterationsMessage`, invoke the model once without
the `tools` parameter, emit a `response` step and return.  Each chat
invocation consults the oracle at index `st.chatCalls.length`, the
number of chat completions performed so far; an `.error` from the
oracle is an exception that propagates out of the loop uncaught. -/
def loopFrom (options : LoopOptions) : Nat → LoopState → RunResult
  | 0, st =>
    let messages := st.messages ++ [maxIterationsMessage]
    let chatCalls := st.chatCalls ++ [{ msgs := messages, tools := Option.none }]
    match options.openai.chat st.chatCalls.length with
    | .error e =>
      { outcome := .error e, messages := messages, steps := st.steps,
        chatCalls := chatCalls }
    | .ok message =>
      let final_content := message.content.getD ""
      { outcome := .ok final_content, messages := messages,
        steps := st.steps ++ [responseStep final_content], chatCalls := chatCalls }
  | fuel + 1, st =>
    let chatCalls := st.chatCalls ++ [toolsChatCall st.messages]
    match options.openai.chat st.chatCalls.length with
    | .error e =>
      { outcome := .error e, messages := st.messages, steps := st.steps,
        chatCalls := chatCalls }
    | .ok message =>
      let messages := st.messages ++ [assistantMessage message.content]
      if message.tool_calls.isEmpty then
        let final_content := message.content.getD ""
        { outcome := .ok final_content, messages := messages,
          steps := st.steps ++ [responseStep final_content], chatCalls := chatCalls }
      else
        let ms := processToolCalls options message.tool_calls messages st.steps
        loopFrom options fuel { messages := ms.1, steps := ms.2, chatCalls := chatCalls }

/-- The initial message sequence of a run (loop.py lines 122-127):
`[system prompt] + history + [user message]`. -/
def initialMessages (user_message : String) (history : List Message) : List Message :=
  { role := "system", content := some SYSTEM_PROMPT, tool_call_id := Option.none } ::
    (history ++ [{ role := "user", content := some user_message,
                   tool_call_id := Option.none }])

/-- Embedding of `run_react_loop` (loop.py lines 107-202): build
`[system prompt] + history + [user message]` and run the loop. -/
def run_react_loop (user_message : String) (history : List Message)
    (options : LoopOptions) : RunResult :=
  loopFrom options MAX_ITERATIONS
    { messages := initialMessages user_message history, steps := [], chatCalls := [] }

/-! ### Spec-side shapes for one Acting round (spec section 4.1 step 4) -/

/-- Per the spec: a `tool_call` LoopStep carrying the name and the parsed
arguments, emitted before the tool is dispatched. -/
def specToolCallStep (tc : ToolCall) : LoopStep :=
  { type := "tool_call", name := tc.function.name,
    arguments := some (parsedArguments tc.function.arguments) }

/-- Per the spec: a `tool_result` LoopStep carrying the pre-normalization
result value of the dispatch. -/
def specToolResultStep (options : LoopOptions) (tc : ToolCall) : LoopStep :=
  { type := "tool_result", name := tc.function.name,
    result := some (.dict (_execute_tool tc.function.name
      (parsedArguments tc.function.arguments) options)) }

/-- Per the spec: a `tool` Message carrying the normalized result
serialized as JSON text, tagged with the invocation identifier. -/
def specToolMessage (options : LoopOptions) (tc : ToolCall) : Message :=
  { role := "tool",
    content := some (jsonDumps (_json_serializable (.dict (_execute_tool
      tc.function.name (parsedArguments tc.function.arguments) options)))),
    tool_call_id := some tc.id }

/-- A chat-completion outcome that is a response (no exception) carrying
at least one tool call. -/
def okWithToolCalls : Except String ModelMessage → Bool
  | .ok m => !m.tool_calls.isEmpty
  | .error _ => false

/-! ### Concrete fixtures used by witness theorems -/

def wMemory : MemoryClient :=
  { query := fun _ _ => .ok [("records", PyVal.list [])],
    write := fun _ _ => .error "boom",
    schema := fun _ => .ok [("labels", PyVal.list []),
                            ("relationshipTypes", PyVal.list []),
                            ("propertyKeys", PyVal.list [])] }

def wToolCall : ToolCall :=
  { id := "call_1", function := { name := "memory_schema", arguments := "" } }

/-- Model always answers "4" immediately, no tool calls configured. -/
def wOptsDirect : LoopOptions :=
  { openai := { chat := fun _ => .ok { content := some "4", tool_calls := [] },
                embeddings := fun _ _ => .ok (PyVal.list []) },
    model := "gpt-test", memory := wMemory }

/-- Model issues a tool call on each of the first ten invocations, then
answers "done" on the forced-termination call. -/
def wOptsLoop : LoopOptions :=
  { openai := { chat := fun n =>
                  if n < 10 then .ok { content := some "hm", tool_calls := [wToolCall] }
                  else .ok { content := some "done", tool_calls := [] },
                embeddings := fun _ _ => .ok (PyVal.list []) },
    model := "gpt-test", memory := wMemory }

/-- Every chat-completion invocation raises. -/
def wOptsFail : LoopOptions :=
  { openai := { chat := fun _ => .error "connection reset",
                embeddings := fun _ _ => .ok (PyVal.list []) },
    model := "gpt-test", memory := wMemory }

def wSearchResponse : SearchResponse :=
  { results := [{ title := "t", link := "l", snippet := "s" }],
    total_results := some 1, query := "q" }

/-- Options with a search collaborator that always succeeds with
`wSearchResponse`. -/
def wOptsSearch : LoopOptions :=
  { openai := wOptsDirect.openai, model := "gpt-test", memory := wMemory,
    search := some { search := fun _ _ => .ok wSearchResponse } }

/-! ### Theorems: the Result Normalizer (claim C8) -/

mutual

theorem isJsonSafe_serialize : (v : PyVal) → isJsonSafe (_json_serializable v) = true
  | .none => rfl
  | .bool _ => rfl
  | .int _ => rfl
  | .float _ => rfl
  | .str _ => rfl
  | .record fs => isJsonSafeFields_serialize fs
  | .neo4jTemporal _ => rfl
  | .datetime _ => rfl
  | .dict es => isJsonSafeFields_serialize es
  | .list xs => isJsonSafeList_serialize xs
  | .tuple xs => isJsonSafeList_serialize xs
  | .other _ => rfl

theorem isJsonSafeFields_serialize :
    (fs : List (String × PyVal)) → isJsonSafeFields (serializeFields fs) = true
  | [] => rfl
  | (_, v) :: rest => by
      simp [serializeFields, isJsonSafeFields, isJsonSafe_serialize v,
        isJsonSafeFields_serialize rest]

theorem isJsonSafeList_serialize :
    (xs : List PyVal) → isJsonSafeList (serializeList xs) = true
  | [] => rfl
  | v :: rest => by
      simp [serializeList, isJsonSafeList, isJsonSafe_serialize v,
        isJsonSafeList_serialize rest]

end

theorem serializeFields_eq :
    (fs : List (String × PyVal)) →
      serializeFields fs = fs.map fun p => (p.1, _json_serializable p.2)
  | [] => rfl
  | (_, _) :: rest => by simp [serializeFields, serializeFields_eq rest]

theorem serializeList_eq :
    (xs : List PyVal) → serializeList xs = xs.map _json_serializable
  | [] => rfl
  | _ :: rest => by simp [serializeList, serializeList_eq rest]

/-- Claim C8: the Result Normalizer `_json_serializable` is a pure total Lean
function (hence never raises); it leaves null/bool/number/string
unchanged, renders temporal values as their ISO-8601 text, renders
record-like values as a mapping of field names to normalized field
values, renders lists and tuples as ordered sequences of normalized
elements, renders mappings as mappings of normalized values, renders
every other value as its string representation, and its output is
always JSON-safe. -/
theorem json_serializable_normalizer_spec :
    _json_serializable .none = .none ∧
    (∀ b, _json_serializable (.bool b) = .bool b) ∧
    (∀ n, _json_serializable (.int n) = .int n) ∧
    (∀ r, _json_serializable (.float r) = .float r) ∧
    (∀ s, _json_serializable (.str s) = .str s) ∧
    (∀ iso, _json_serializable (.datetime iso) = .str iso) ∧
    (∀ r, _json_serializable (.neo4jTemporal r) = .str r) ∧
    (∀ fs, _json_serializable (.record fs) =
      .dict (fs.map fun p => (p.1, _json_serializable p.2))) ∧
    (∀ es, _json_serializable (.dict es) =
      .dict (es.map fun p => (p.1, _json_serializable p.2))) ∧
    (∀ xs, _json_serializable (.list xs) = .list (xs.map _json_serializable)) ∧
    (∀ xs, _json_serializable (.tuple xs) = .list (xs.map _json_serializable)) ∧
    (∀ r, _json_serializable (.other r) = .str r) ∧
    (∀ v, isJsonSafe (_json_serializable v) = true) := by
  refine ⟨rfl, fun _ => rfl, fun _ => rfl, fun _ => rfl, fun _ => rfl, fun _ => rfl,
    fun _ => rfl, ?_, ?_, ?_, ?_, fun _ => rfl, isJsonSafe_serialize⟩
  · intro fs; simp [_json_serializable, serializeFields_eq]
  · intro es; simp [_json_serializable, serializeFields_eq]
  · intro xs; simp [_json_serializable, serializeList_eq]
  · intro xs; simp [_json_serializable, serializeList_eq]

/-! ### Theorems: one Acting round (claim C4) -/

theorem processToolCall_eq (options : LoopOptions) (acc : List Message × List LoopStep)
    (tc : ToolCall) :
    processToolCall options acc tc =
      (acc.1 ++ [specToolMessage options tc],
       acc.2 ++ [specToolCallStep tc, specToolResultStep options tc]) := by
  simp [processToolCall, specToolMessage, specToolCallStep, specToolResultStep]

theorem processToolCalls_eq (options : LoopOptions) (tcs : List ToolCall)
    (messages : List Message) (steps : List LoopStep) :
    processToolCalls options tcs messages steps =
      (messages ++ tcs.map (specToolMessage options),
       steps ++ tcs.flatMap fun tc => [specToolCallStep tc, specToolResultStep options tc]) := by
  induction tcs generalizing messages steps with
  | nil => simp [processToolCalls]
  | cons tc rest ih =>
    have h := ih (messages ++ [specToolMessage options tc])
      (steps ++ [specToolCallStep tc, specToolResultStep options tc])
    simp only [processToolCalls, List.foldl_cons] at h ⊢
    rw [processToolCall_eq, h]
    simp

theorem specToolMessage_role (options : LoopOptions) (tc : ToolCall) :
    (specToolMessage options tc).role = "tool" := rfl

theorem specToolCallStep_type (tc : ToolCall) :
    (specToolCallStep tc).type = "tool_call" := rfl

theorem specToolResultStep_type (options : LoopOptions) (tc : ToolCall) :
    (specToolResultStep options tc).type = "tool_result" := rfl

/-- Claim C4: within one Acting round the invocations are processed strictly
sequentially in the order the model returned them; for each invocation a
`tool_call` step carrying the name and parsed arguments is emitted, then
(after dispatch) a `tool_result` step carrying the pre-normalization
result, and a `tool` Message carrying the normalized result serialized
as JSON text tagged with the invocation identifier is appended — all
before the pieces of the next invocation.  (The loop appends any later
round's steps only after this round's result, so every step of this
round also precedes the next Reasoning round's steps.) -/
theorem acting_round_order (options : LoopOptions) (tcs : List ToolCall)
    (messages : List Message) (steps : List LoopStep) :
    processToolCalls options tcs messages steps =
      (messages ++ tcs.map (specToolMessage options),
       steps ++ tcs.flatMap fun tc => [specToolCallStep tc, specToolResultStep options tc]) ∧
    (∀ tc, specToolCallStep tc =
      { type := "tool_call", name := tc.function.name,
        arguments := some (parsedArguments tc.function.arguments) }) ∧
    (∀ tc, specToolResultStep options tc =
      { type := "tool_result", name := tc.function.name,
        result := some (.dict (_execute_tool tc.function.name
          (parsedArguments tc.function.arguments) options)) }) ∧
    (∀ tc, specToolMessage options tc =
      { role := "tool",
        content := some (jsonDumps (_json_serializable (.dict (_execute_tool
          tc.function.name (parsedArguments tc.function.arguments) options)))),
        tool_call_id := some tc.id }) :=
  ⟨processToolCalls_eq options tcs messages steps,
   fun _ => rfl, fun _ => rfl, fun _ => rfl⟩

/-! ### Theorems: invocation bound and termination (claim C1) -/

theorem loopFrom_chatCalls_le (options : LoopOptions) :
    ∀ (fuel : Nat) (st : LoopState),
      (loopFrom options fuel st).chatCalls.length ≤ st.chatCalls.length + (fuel + 1) := by
  intro fuel
  induction fuel with
  | zero =>
    intro st
    simp only [loopFrom]
    cases h : options.openai.chat st.chatCalls.length with
    | error e => simp
    | ok message => simp
  | succ fuel ih =>
    intro st
    simp only [loopFrom]
    cases h : options.openai.chat st.chatCalls.length with
    | error e => simp
    | ok message =>
      by_cases hte : message.tool_calls.isEmpty
      · simp [hte]
      · simp only [hte, Bool.false_eq_true, if_false]
        refine le_trans (ih _) ?_
        simp
        omega

/-- Claim C1: for every user message, history, options and every sequence of
model responses, `run_react_loop` is a total function (so every run
terminates) and performs at most `MAX_ITERATIONS + 1 = 11` chat-completion
invocations, regardless of how many tool calls the model issues. -/
theorem run_react_loop_invocation_bound (user_message : String)
    (history : List Message) (options : LoopOptions) :
    (run_react_loop user_message history options).chatCalls.length ≤ MAX_ITERATIONS + 1 := by
  have h := loopFrom_chatCalls_le options MAX_ITERATIONS
    { messages := initialMessages user_message history, steps := [], chatCalls := [] }
  simpa [run_react_loop] using h

/-! ### Theorems: immediate response (claim C3) -/

theorem loopFrom_no_tool_calls (options : LoopOptions) (fuel : Nat) (st : LoopState)
    (m : ModelMessage) (h : options.openai.chat st.chatCalls.length = .ok m)
    (hnc : m.tool_calls = []) :
    loopFrom options (fuel + 1) st =
      { outcome := .ok (m.content.getD ""),
        messages := st.messages ++ [assistantMessage m.content],
        steps := st.steps ++ [responseStep (m.content.getD "")],
        chatCalls := st.chatCalls ++ [toolsChatCall st.messages] } := by
  simp [loopFrom, h, hnc]

/-- Claim C3: if the first model response contains no tool calls, the run
performs exactly one chat-completion invocation, emits exactly one
`response` LoopStep, and returns that response's textual content
verbatim (the empty string when the content is absent). -/
theorem run_react_loop_first_response (user_message : String) (history : List Message)
    (options : LoopOptions) (m : ModelMessage)
    (h : options.openai.chat 0 = .ok m) (hnc : m.tool_calls = []) :
    (run_react_loop user_message history options).chatCalls.length = 1 ∧
    (run_react_loop user_message history options).steps =
      [responseStep (m.content.getD "")] ∧
    (run_react_loop user_message history options).outcome = .ok (m.content.getD "") := by
  have key := loopFrom_no_tool_calls options 9
    { messages := initialMessages user_message history, steps := [], chatCalls := [] } m h hnc
  have hrun : run_react_loop user_message history options =
      loopFrom options (9 + 1)
        { messages := initialMessages user_message history, steps := [],
          chatCalls := [] } := rfl
  rw [hrun, key]
  simp

/-! ### Theorems: the exhausted path (claim C2) -/

theorem loopFrom_exhausted (options : LoopOptions) :
    ∀ (fuel : Nat) (st : LoopState) (m : ModelMessage),
      (∀ i < fuel, okWithToolCalls (options.openai.chat (st.chatCalls.length + i)) = true) →
      options.openai.chat (st.chatCalls.length + fuel) = .ok m →
      ∃ ms ss cs,
        loopFrom options fuel st =
          { outcome := .ok (m.content.getD ""),
            messages := st.messages ++ ms ++ [maxIterationsMessage],
            steps := st.steps ++ ss ++ [responseStep (m.content.getD "")],
            chatCalls := st.chatCalls ++ cs ++
              [{ msgs := st.messages ++ ms ++ [maxIterationsMessage],
                 tools := Option.none }] } ∧
        cs.length = fuel ∧
        (∀ c ∈ cs, c.tools = some get_memory_tools) ∧
        (∀ x ∈ ms, x.role = "assistant" ∨ x.role = "tool") ∧
        (∀ s ∈ ss, s.type = "tool_call" ∨ s.type = "tool_result") := by
  intro fuel
  induction fuel with
  | zero =>
    intro st m h hfin
    simp only [Nat.add_zero] at hfin
    refine ⟨[], [], [], ?_, rfl, by simp, by simp, by simp⟩
    simp [loopFrom, hfin]
  | succ fuel ih =>
    intro st m h hfin
    have h0 := h 0 (Nat.succ_pos fuel)
    simp only [Nat.add_zero] at h0
    cases hc : options.openai.chat st.chatCalls.length with
    | error e => rw [hc] at h0; simp [okWithToolCalls] at h0
    | ok m0 =>
      rw [hc] at h0
      have hne : m0.tool_calls.isEmpty = false := by
        simpa [okWithToolCalls] using h0
      have hPT := processToolCalls_eq options m0.tool_calls
        (st.messages ++ [assistantMessage m0.content]) st.steps
      obtain ⟨ms', ss', cs', heq, hlen, hcs, hms, hss⟩ := ih
        { messages := (st.messages ++ [assistantMessage m0.content]) ++
            m0.tool_calls.map (specToolMessage options),
          steps := st.steps ++ (m0.tool_calls.flatMap fun tc =>
            [specToolCallStep tc, specToolResultStep options tc]),
          chatCalls := st.chatCalls ++ [toolsChatCall st.messages] } m
        (by
          intro i hi
          have hh := h (i + 1) (by omega)
          have e : st.chatCalls.length + (i + 1) =
              (st.chatCalls ++ [toolsChatCall st.messages]).length + i := by
            simp; omega
          rwa [e] at hh)
        (by
          have e : st.chatCalls.length + (fuel + 1) =
              (st.chatCalls ++ [toolsChatCall st.messages]).length + fuel := by
            simp; omega
          rwa [e] at hfin)
      have hstep : loopFrom options (fuel + 1) st = loopFrom options fuel
          { messages := (st.messages ++ [assistantMessage m0.content]) ++
              m0.tool_calls.map (specToolMessage options),
            steps := st.steps ++ (m0.tool_calls.flatMap fun tc =>
              [specToolCallStep tc, specToolResultStep options tc]),
            chatCalls := st.chatCalls ++ [toolsChatCall st.messages] } := by
        simp only [loopFrom, hc, hne, Bool.false_eq_true, if_false, hPT]
      refine ⟨assistantMessage m0.content ::
          (m0.tool_calls.map (specToolMessage options) ++ ms'),
        (m0.tool_calls.flatMap fun tc =>
          [specToolCallStep tc, specToolResultStep options tc]) ++ ss',
        toolsChatCall st.messages :: cs',
        ?_, ?_, ?_, ?_, ?_⟩
      · rw [hstep, heq]
        simp [List.append_assoc]
      · simp [hlen]
      · intro c hcmem
        rcases List.mem_cons.mp hcmem with hcm | hcm
        · rw [hcm]; rfl
        · exact hcs c hcm
      · intro x hx
        rcases List.mem_cons.mp hx with hxm | hxm
        · left; rw [hxm]; rfl
        · rcases List.mem_append.mp hxm with hxm2 | hxm2
          · right
            obtain ⟨tc, _, htc⟩ := List.mem_map.mp hxm2
            rw [← htc]
            rfl
          · exact hms x hxm2
      · intro s hs
        rcases List.mem_append.mp hs with hsm | hsm
        · obtain ⟨tc, _, htc⟩ := List.mem_flatMap.mp hsm
          rcases List.mem_cons.mp htc with hst | hst
          · left; rw [hst]; rfl
          · rcases List.mem_cons.mp hst with hst2 | hst2
            · right; rw [hst2]; rfl
            · simp at hst2
        · exact hss s hsm

/-- Claim C2: if each of the first `MAX_ITERATIONS = 10` model responses
contains tool calls, the run appends exactly one extra system Message
(the max-iterations instruction, which ends the final message sequence;
every other message added by the rounds is an assistant or tool
message), performs exactly one additional chat-completion invocation
without the `tools` parameter (all earlier invocations carry the Tool
Catalog), emits exactly one `response` LoopStep whose content is that
final invocation's textual content (empty string when absent), and
returns that same text. -/
theorem run_react_loop_exhausted_spec (user_message : String) (history : List Message)
    (options : LoopOptions) (m : ModelMessage)
    (h : ∀ i < MAX_ITERATIONS, okWithToolCalls (options.openai.chat i) = true)
    (hfin : options.openai.chat MAX_ITERATIONS = .ok m) :
    (run_react_loop user_message history options).outcome = .ok (m.content.getD "") ∧
    (run_react_loop user_message history options).chatCalls.length = MAX_ITERATIONS + 1 ∧
    (∃ cs lastCall,
      (run_react_loop user_message history options).chatCalls = cs ++ [lastCall] ∧
      cs.length = MAX_ITERATIONS ∧
      (∀ c ∈ cs, c.tools = some get_memory_tools) ∧
      lastCall.tools = Option.none ∧
      lastCall.msgs = (run_react_loop user_message history options).messages) ∧
    (∃ roundMsgs,
      (run_react_loop user_message history options).messages =
        initialMessages user_message history ++ roundMsgs ++ [maxIterationsMessage] ∧
      ∀ x ∈ roundMsgs, x.role = "assistant" ∨ x.role = "tool") ∧
    (run_react_loop user_message history options).steps.filter
        (fun s => s.type == "response") = [responseStep (m.content.getD "")] := by
  obtain ⟨ms, ss, cs, heq, hlen, hcs, hms, hss⟩ := loopFrom_exhausted options MAX_ITERATIONS
    { messages := initialMessages user_message history, steps := [], chatCalls := [] } m
    (by intro i hi; simpa using h i hi)
    (by simpa using hfin)
  have hrun : run_react_loop user_message history options = loopFrom options MAX_ITERATIONS
    { messages := initialMessages user_message history, steps := [], chatCalls := [] } := rfl
  rw [hrun, heq]
  refine ⟨rfl, ?_, ?_, ?_, ?_⟩
  · simp [hlen]
  · refine ⟨cs,
      ⟨initialMessages user_message history ++ ms ++ [maxIterationsMessage], Option.none⟩,
      by simp, hlen, hcs, rfl, by simp⟩
  · exact ⟨ms, by simp, hms⟩
  · have hfil : ss.filter (fun s => s.type == "response") = [] := by
      rw [List.filter_eq_nil_iff]
      intro s hsmem
      rcases hss s hsmem with ht | ht <;> simp [ht]
    simp [List.filter_append, hfil, responseStep]

/-! ### Theorems: model failures propagate (claim C9) -/

theorem loopFrom_error_iff (options : LoopOptions) :
    ∀ (fuel : Nat) (st : LoopState) (e : String),
      (loopFrom options fuel st).outcome = .error e ↔
        options.openai.chat ((loopFrom options fuel st).chatCalls.length - 1) = .error e := by
  intro fuel
  induction fuel with
  | zero =>
    intro st e
    simp only [loopFrom]
    cases hc : options.openai.chat st.chatCalls.length with
    | error e0 => simp [hc]
    | ok m0 => simp [hc]
  | succ fuel ih =>
    intro st e
    simp only [loopFrom]
    cases hc : options.openai.chat st.chatCalls.length with
    | error e0 => simp [hc]
    | ok m0 =>
      by_cases hte : m0.tool_calls.isEmpty
      · simp [hc, hte]
      · simp only [hc, hte, Bool.false_eq_true, if_false]
        exact ih _ e

theorem loopFrom_error_no_response (options : LoopOptions) :
    ∀ (fuel : Nat) (st : LoopState) (e : String),
      (loopFrom options fuel st).outcome = .error e →
      (loopFrom options fuel st).steps.countP (fun s => s.type == "response") =
        st.steps.countP (fun s => s.type == "response") := by
  intro fuel
  induction fuel with
  | zero =>
    intro st e herr
    simp only [loopFrom] at herr ⊢
    cases hc : options.openai.chat st.chatCalls.length with
    | error e0 => simp [hc]
    | ok m0 => rw [hc] at herr; simp at herr
  | succ fuel ih =>
    intro st e herr
    simp only [loopFrom] at herr ⊢
    cases hc : options.openai.chat st.chatCalls.length with
    | error e0 => simp [hc]
    | ok m0 =>
      simp only [hc] at herr ⊢
      by_cases hte : m0.tool_calls.isEmpty
      · rw [if_pos hte] at herr; simp at herr
      · rw [if_neg hte] at herr
        rw [if_neg hte]
        rw [processToolCalls_eq] at herr ⊢
        have h2 := ih _ e herr
        rw [h2]
        simp only [List.countP_append]
        have hflat : (m0.tool_calls.flatMap fun tc =>
            [specToolCallStep tc, specToolResultStep options tc]).countP
              (fun s => s.type == "response") = 0 := by
          rw [List.countP_eq_zero]
          intro s hsmem
          obtain ⟨tc, _, htc⟩ := List.mem_flatMap.mp hsmem
          rcases List.mem_cons.mp htc with hst | hst
          · rw [hst]; simp [specToolCallStep]
          · rcases List.mem_cons.mp hst with hst2 | hst2
            · rw [hst2]; simp [specToolResultStep]
            · simp at hst2
        rw [hflat]
        simp

/-- Claim C9: when a chat-completion invocation raises, `run_react_loop` does
not catch it — the run's outcome is abnormal exactly when the last
attempted invocation raised, the exception text reaches the caller
unchanged, no final text is produced, and no `response` LoopStep is ever
emitted in such a run. -/
theorem run_react_loop_model_failure (user_message : String) (history : List Message)
    (options : LoopOptions) (e : String) :
    ((run_react_loop user_message history options).outcome = .error e ↔
      options.openai.chat
        ((run_react_loop user_message history options).chatCalls.length - 1) = .error e) ∧
    ((run_react_loop user_message history options).outcome = .error e →
      (run_react_loop user_message history options).steps.countP
        (fun s => s.type == "response") = 0) := by
  constructor
  · exact loopFrom_error_iff options MAX_ITERATIONS
      { messages := initialMessages user_message history, steps := [], chatCalls := [] } e
  · intro herr
    have h2 := loopFrom_error_no_response options MAX_ITERATIONS
      { messages := initialMessages user_message history, steps := [], chatCalls := [] } e herr
    simpa using h2

/-! ### Theorems: emitted step kinds (claim C10) -/

theorem loopFrom_step_types (options : LoopOptions) :
    ∀ (fuel : Nat) (st : LoopState),
      (∀ s ∈ st.steps, s.type = "tool_call" ∨ s.type = "tool_result" ∨ s.type = "response") →
      ∀ s ∈ (loopFrom options fuel st).steps,
        s.type = "tool_call" ∨ s.type = "tool_result" ∨ s.type = "response" := by
  intro fuel
  induction fuel with
  | zero =>
    intro st hst s hs
    simp only [loopFrom] at hs
    cases hc : options.openai.chat st.chatCalls.length with
    | error e0 =>
      simp only [hc] at hs
      exact hst s hs
    | ok m0 =>
      simp only [hc] at hs
      rcases List.mem_append.mp hs with hm | hm
      · exact hst s hm
      · right; right
        rcases List.mem_singleton.mp hm with rfl
        rfl
  | succ fuel ih =>
    intro st hst s hs
    simp only [loopFrom] at hs
    cases hc : options.openai.chat st.chatCalls.length with
    | error e0 =>
      simp only [hc] at hs
      exact hst s hs
    | ok m0 =>
      simp only [hc] at hs
      by_cases hte : m0.tool_calls.isEmpty
      · rw [if_pos hte] at hs
        rcases List.mem_append.mp hs with hm | hm
        · exact hst s hm
        · right; right
          rcases List.mem_singleton.mp hm with rfl
          rfl
      · rw [if_neg hte] at hs
        rw [processToolCalls_eq] at hs
        refine ih _ ?_ s hs
        intro s2 hs2
        rcases List.mem_append.mp hs2 with hm | hm
        · exact hst s2 hm
        · obtain ⟨tc, _, htc⟩ := List.mem_flatMap.mp hm
          rcases List.mem_cons.mp htc with hst2 | hst2
          · left; rw [hst2]; rfl
          · rcases List.mem_cons.mp hst2 with hst3 | hst3
            · right; left; rw [hst3]; rfl
            · simp at hst3

/-- Claim C10: although `LoopStep` admits the kinds `thought`, `tool_call`,
`tool_result`, `response` and `error`, `run_react_loop` only ever hands
steps of kind `tool_call`, `tool_result` and `response` to the step
callback: no `thought` or `error` step is ever emitted, for any input
and any model behavior. -/
theorem run_react_loop_step_kinds (user_message : String) (history : List Message)
    (options : LoopOptions) :
    ∀ s ∈ (run_react_loop user_message history options).steps,
      (s.type = "tool_call" ∨ s.type = "tool_result" ∨ s.type = "response") ∧
      s.type ≠ "thought" ∧ s.type ≠ "error" := by
  intro s hs
  have h := loopFrom_step_types options MAX_ITERATIONS
    { messages := initialMessages user_message history, steps := [], chatCalls := [] }
    (by simp) s hs
  refine ⟨h, ?_, ?_⟩ <;> rcases h with h1 | h1 | h1 <;> simp [h1]

/-! ### Theorems: the Tool Dispatcher (claims C5, C6, C7) -/

/-- Claim C5: the dispatcher `_execute_tool` is a total function into result mappings (so it
never raises); an exception raised by an underlying collaborator
(an `.error` escaping the dispatch body) is converted to
`{error: str(exception)}`, a normal result is returned unchanged, and
any name outside the five recognized tools yields exactly
`{error: "Unknown tool: <name>"}` — in particular `"frobnicate"` yields
`{error: "Unknown tool: frobnicate"}`. -/
theorem execute_tool_spec (options : LoopOptions) (name : String)
    (entries : List (String × PyVal)) :
    (name ∉ ["memory_query", "memory_write", "memory_schema", "embedding", "web_search"] →
      _execute_tool name (.dict entries) options =
        [("error", .str ("Unknown tool: " ++ name))]) ∧
    _execute_tool "frobnicate" (.dict entries) options =
      [("error", .str "Unknown tool: frobnicate")] ∧
    (∀ e, _execute_tool_body name (.dict entries) options = .error e →
      _execute_tool name (.dict entries) options = [("error", .str e)]) ∧
    (∀ m, _execute_tool_body name (.dict entries) options = .ok m →
      _execute_tool name (.dict entries) options = m) := by
  refine ⟨?_, ?_, ?_, ?_⟩
  · intro hn
    simp only [List.mem_cons, List.mem_singleton, not_or] at hn
    obtain ⟨h1, h2, h3, h4, ⟨h5, -⟩⟩ := hn
    simp [_execute_tool, _execute_tool_body, h1, h2, h3, h4, h5]
  · rfl
  · intro e he
    simp [_execute_tool, he]
  · intro m hm
    simp [_execute_tool, hm]

/-- Claim C6: when a tool invocation's raw argument payload fails to parse as
JSON (for example the text `"\x7b"`), the parsed arguments used for the
`tool_call` LoopStep and for dispatch are the empty mapping, and the
round still emits its `tool_call` and `tool_result` steps and appends
its `tool` Message normally instead of failing the turn. -/
theorem malformed_arguments_spec :
    (∀ s e, jsonLoads s = .error e → parsedArguments s = .dict []) ∧
    parsedArguments "\x7b" = .dict [] ∧
    (∀ (options : LoopOptions) (id name : String)
       (messages : List Message) (steps : List LoopStep),
      processToolCalls options [⟨id, ⟨name, "\x7b"⟩⟩] messages steps =
        (messages ++ [specToolMessage options ⟨id, ⟨name, "\x7b"⟩⟩],
         steps ++ [{ type := "tool_call", name := name, arguments := some (.dict []) },
                   specToolResultStep options ⟨id, ⟨name, "\x7b"⟩⟩])) := by
  have hparse : ∀ s e, jsonLoads s = .error e → parsedArguments s = .dict [] := by
    intro s e he
    by_cases hs : s = ""
    · simp [parsedArguments, hs]
    · simp [parsedArguments, hs, he]
  have hbrace : parsedArguments "\x7b" = .dict [] :=
    hparse "\x7b" "Expecting property name enclosed in double quotes" rfl
  refine ⟨hparse, hbrace, ?_⟩
  intro options id name messages steps
  rw [processToolCalls_eq]
  simp [specToolCallStep, hbrace]

/-- Claim C7: a `web_search` dispatch with no search collaborator configured
returns exactly `{error: "Search client not configured"}` without
raising (also through the dispatcher); with a configured collaborator it
delegates to it and returns a mapping with exactly the keys `query`,
`totalResults`, `results`, each result being a mapping with exactly the
keys `title`, `link`, `snippet`, `date`, `thumbnailUrl`, `siteName`. -/
theorem web_search_spec (options : LoopOptions)
    (query num_results search_type : PyVal) (entries : List (String × PyVal)) :
    (options.search = Option.none →
      _web_search query num_results search_type options =
        .ok [("error", .str "Search client not configured")]) ∧
    (options.search = Option.none →
      _execute_tool "web_search" (.dict entries) options =
        [("error", .str "Search client not configured")]) ∧
    (∀ client resp, options.search = some client →
      client.search query { num_results := num_results, type := search_type } = .ok resp →
      _web_search query num_results search_type options =
        .ok [("query", .str resp.query),
             ("totalResults", optIntPy resp.total_results),
             ("results", .list (resp.results.map searchResultPy))] ∧
      [("query", PyVal.str resp.query), ("totalResults", optIntPy resp.total_results),
       ("results", PyVal.list (resp.results.map searchResultPy))].map Prod.fst =
        ["query", "totalResults", "results"] ∧
      ∀ r ∈ resp.results, ∃ fields, searchResultPy r = .dict fields ∧
        fields.map Prod.fst =
          ["title", "link", "snippet", "date", "thumbnailUrl", "siteName"]) := by
  refine ⟨?_, ?_, ?_⟩
  · intro hn
    simp [_web_search, hn]
  · intro hn
    simp [_execute_tool, _execute_tool_body, pyGet, _web_search, hn, bind, Except.bind]
  · intro client resp hs hsearch
    refine ⟨?_, rfl, ?_⟩
    · simp [_web_search, hs, hsearch]
    · intro r hr
      exact ⟨_, rfl, rfl⟩

/-! ### Witnesses: each hypothesis-bearing claim theorem applied at a
concrete input -/

/-- Witness for C2, at `wOptsLoop` (ten tool-calling rounds, then a
final answer "done"). -/
theorem run_react_loop_exhausted_spec_witness :
    (run_react_loop "hi" [] wOptsLoop).outcome = .ok "done" ∧
    (run_react_loop "hi" [] wOptsLoop).chatCalls.length = MAX_ITERATIONS + 1 := by
  have h := run_react_loop_exhausted_spec "hi" [] wOptsLoop ⟨some "done", []⟩
    (by decide) rfl
  exact ⟨h.1, h.2.1⟩

/-- Witness for C3, at `wOptsDirect` (model answers "4" at once). -/
theorem run_react_loop_first_response_witness :
    (run_react_loop "2+2?" [] wOptsDirect).chatCalls.length = 1 ∧
    (run_react_loop "2+2?" [] wOptsDirect).steps = [responseStep "4"] ∧
    (run_react_loop "2+2?" [] wOptsDirect).outcome = .ok "4" := by
  have h := run_react_loop_first_response "2+2?" [] wOptsDirect ⟨some "4", []⟩ rfl rfl
  exact ⟨h.1, h.2.1, h.2.2⟩

/-- Witness for C5: an unrecognized name, the name "frobnicate", and a
collaborator ("memory_write" at `wMemory`) raising "boom". -/
theorem execute_tool_spec_witness :
    _execute_tool "xyz" (.dict []) wOptsDirect = [("error", .str "Unknown tool: xyz")] ∧
    _execute_tool "frobnicate" (.dict []) wOptsDirect =
      [("error", .str "Unknown tool: frobnicate")] ∧
    _execute_tool "memory_write" (.dict []) wOptsDirect = [("error", .str "boom")] := by
  have h := execute_tool_spec wOptsDirect "xyz" []
  have h2 := execute_tool_spec wOptsDirect "memory_write" []
  exact ⟨h.1 (by decide), h.2.1, h2.2.2.1 "boom" rfl⟩

/-- Witness for C6, at the malformed payload `"\x7b"`. -/
theorem malformed_arguments_spec_witness :
    jsonLoads "\x7b" = .error "Expecting property name enclosed in double quotes" ∧
    parsedArguments "\x7b" = .dict [] :=
  ⟨rfl, malformed_arguments_spec.1 "\x7b"
    "Expecting property name enclosed in double quotes" rfl⟩

/-- Witness for C7: no search collaborator at `wOptsDirect`, a
configured collaborator at `wOptsSearch`. -/
theorem web_search_spec_witness :
    _web_search (.str "q") .none (.str "search") wOptsDirect =
      .ok [("error", .str "Search client not configured")] ∧
    _web_search (.str "q") .none (.str "search") wOptsSearch =
      .ok [("query", .str "q"), ("totalResults", .int 1),
           ("results", .list [.dict [("title", .str "t"), ("link", .str "l"),
             ("snippet", .str "s"), ("date", .none), ("thumbnailUrl", .none),
             ("siteName", .none)]])] := by
  have h1 := (web_search_spec wOptsDirect (.str "q") .none (.str "search") []).1 rfl
  have h2 := (web_search_spec wOptsSearch (.str "q") .none (.str "search") []).2.2
    ⟨fun _ _ => .ok wSearchResponse⟩ wSearchResponse rfl rfl
  exact ⟨h1, h2.1⟩

/-- Witness for C9, at `wOptsFail` (every chat invocation raises
"connection reset"). -/
theorem run_react_loop_model_failure_witness :
    (run_react_loop "hi" [] wOptsFail).outcome = .error "connection reset" ∧
    (run_react_loop "hi" [] wOptsFail).steps.countP (fun s => s.type == "response") = 0 ∧
    wOptsFail.openai.chat
      ((run_react_loop "hi" [] wOptsFail).chatCalls.length - 1) =
        .error "connection reset" := by
  have h := run_react_loop_model_failure "hi" [] wOptsFail "connection reset"
  have houtcome : (run_react_loop "hi" [] wOptsFail).outcome = .error "connection reset" := rfl
  exact ⟨houtcome, h.2 houtcome, h.1.mp houtcome⟩

/-- Witness for C10, at the `response` step emitted by `wOptsDirect`. -/
theorem run_react_loop_step_kinds_witness :
    responseStep "4" ∈ (run_react_loop "2+2?" [] wOptsDirect).steps ∧
    (responseStep "4").type ≠ "thought" ∧ (responseStep "4").type ≠ "error" := by
  have hsteps : (run_react_loop "2+2?" [] wOptsDirect).steps = [responseStep "4"] := rfl
  have hmem : responseStep "4" ∈ (run_react_loop "2+2?" [] wOptsDirect).steps := by
    rw [hsteps]
    exact List.mem_singleton.mpr rfl
  have h := run_react_loop_step_kinds "2+2?" [] wOptsDirect (responseStep "4") hmem
  exact ⟨hmem, h.2⟩
